import Mathlib

/-!
Verification of the LP calculator component (`src/components/LPCalculator.tsx`).

The component's logic is embedded shallowly:
* JavaScript numbers are modelled by `JSNum`: a finite rational, `+Infinity`,
  `-Infinity`, or `NaN`.  Finite arithmetic is exact rational arithmetic; the
  spec states its properties "modulo floating point", i.e. over exact
  arithmetic, so IEEE rounding is abstracted away.  The special-value
  propagation rules (division by zero, operations on infinities, NaN
  absorption) follow ECMAScript semantics.
* `jsParseFloat` models the ECMAScript `parseFloat` builtin used by the code:
  leading whitespace is skipped, then the longest prefix matching an
  optionally signed decimal literal (or `Infinity`) is converted; if no such
  prefix exists the result is `NaN`.  The scanner `scanFloat` produces the
  discrete description of that prefix (sign, mantissa digits, fraction
  length, exponent); `toJSNum` converts it to the exact value.
* `jsTrim` models `String.prototype.trim` (whitespace stripped from both
  ends; the ASCII whitespace characters suffice for this component).
* Component state: `InputState` is the form's seven raw strings,
  `CalculationResults` the result record, and the `(results, error)` pair the
  output state.  `handleCalculate` maps the form inputs and the previous
  output state to the new output state, mirroring the `try`/`catch` of the
  source via `Except String`.
-/

/-- A JavaScript number as relevant to this component: a finite value
(modelled exactly as a rational), positive or negative infinity, or `NaN`. -/
inductive JSNum where
  | finite (q : ℚ)
  | posInf
  | negInf
  | nan
deriving DecidableEq

/-- JavaScript's `isNaN` on a `JSNum`. -/
def JSNum.isNaN : JSNum → Bool
  | .nan => true
  | _ => false

/-- JavaScript's `<=` comparison: any comparison with `NaN` is false;
otherwise the order with `-Infinity` at the bottom and `+Infinity` at the
top. -/
def jsle : JSNum → JSNum → Bool
  | .nan, _ => false
  | _, .nan => false
  | .negInf, _ => true
  | _, .posInf => true
  | .posInf, _ => false
  | _, .negInf => false
  | .finite a, .finite b => decide (a ≤ b)

/-- JavaScript `+` on `JSNum` (exact on finite values). -/
def jadd : JSNum → JSNum → JSNum
  | .nan, _ => .nan
  | _, .nan => .nan
  | .finite a, .finite b => .finite (a + b)
  | .posInf, .negInf => .nan
  | .negInf, .posInf => .nan
  | .posInf, _ => .posInf
  | _, .posInf => .posInf
  | .negInf, _ => .negInf
  | _, .negInf => .negInf

/-- JavaScript `-` on `JSNum` (exact on finite values). -/
def jsub : JSNum → JSNum → JSNum
  | .nan, _ => .nan
  | _, .nan => .nan
  | .finite a, .finite b => .finite (a - b)
  | .posInf, .posInf => .nan
  | .negInf, .negInf => .nan
  | .posInf, _ => .posInf
  | .negInf, _ => .negInf
  | _, .posInf => .negInf
  | _, .negInf => .posInf

/-- JavaScript `*` on `JSNum` (exact on finite values; `Infinity * 0` is
`NaN`). -/
def jmul : JSNum → JSNum → JSNum
  | .nan, _ => .nan
  | _, .nan => .nan
  | .finite a, .finite b => .finite (a * b)
  | .posInf, .finite b => if b = 0 then .nan else if 0 < b then .posInf else .negInf
  | .negInf, .finite b => if b = 0 then .nan else if 0 < b then .negInf else .posInf
  | .finite a, .posInf => if a = 0 then .nan else if 0 < a then .posInf else .negInf
  | .finite a, .negInf => if a = 0 then .nan else if 0 < a then .negInf else .posInf
  | .posInf, .posInf => .posInf
  | .posInf, .negInf => .negInf
  | .negInf, .posInf => .negInf
  | .negInf, .negInf => .posInf

/-- JavaScript `/` on `JSNum` (exact on finite values; `x/0` gives a signed
infinity for `x ≠ 0` and `NaN` for `x = 0`; there is no negative zero in this
model, so a zero divisor or dividend is treated as positive zero). -/
def jdiv : JSNum → JSNum → JSNum
  | .nan, _ => .nan
  | _, .nan => .nan
  | .finite a, .finite b =>
      if b = 0 then
        if a = 0 then .nan else if 0 < a then .posInf else .negInf
      else .finite (a / b)
  | .finite _, .posInf => .finite 0
  | .finite _, .negInf => .finite 0
  | .posInf, .finite b => if 0 ≤ b then .posInf else .negInf
  | .negInf, .finite b => if 0 ≤ b then .negInf else .posInf
  | .posInf, _ => .nan
  | .negInf, _ => .nan

/-- Whitespace characters skipped by `parseFloat` and stripped by `trim`
(the ASCII part of the ECMAScript whitespace set). -/
def isStrWhiteSpaceChar (c : Char) : Bool :=
  c = ' ' || c = '\t' || c = '\n' || c = '\r' || c = '\x0b' || c = '\x0c'

/-- Drop leading whitespace from a character list. -/
def dropLeadingWS : List Char → List Char
  | [] => []
  | c :: cs => if isStrWhiteSpaceChar c then dropLeadingWS cs else c :: cs

/-- Model of JavaScript `String.prototype.trim`: strip whitespace from both
ends. -/
def jsTrim (s : String) : String :=
  ⟨(dropLeadingWS (dropLeadingWS s.toList).reverse).reverse⟩

/-- Split a character list into its longest run of leading decimal digits and
the remainder. -/
def takeDigits : List Char → List Char × List Char
  | [] => ([], [])
  | c :: cs =>
      if c.isDigit then
        let p := takeDigits cs
        (c :: p.1, p.2)
      else ([], c :: cs)

/-- Value of a digit character. -/
def digitVal (c : Char) : ℕ := c.toNat - '0'.toNat

/-- Value of a list of decimal digits, most significant first. -/
def digitsToNat (l : List Char) : ℕ :=
  l.foldl (fun a c => 10 * a + digitVal c) 0

/-- Scan the mantissa of a decimal literal (`Digits [. Digits]` or
`. Digits`): returns the mantissa digits read as an integer, the number of
fraction digits, and the unconsumed remainder, or `none` when the list does
not start with a mantissa. -/
def scanMantissa (l : List Char) : Option ((ℕ × ℕ) × List Char) :=
  let ip := takeDigits l
  match ip.2 with
  | '.' :: r2 =>
      let fp := takeDigits r2
      if ip.1.isEmpty && fp.1.isEmpty then none
      else some ((digitsToNat (ip.1 ++ fp.1), fp.1.length), fp.2)
  | _ => if ip.1.isEmpty then none else some ((digitsToNat ip.1, 0), ip.2)

/-- Scan an exponent part (`e`/`E`, optional sign, digits) at the front of
the list; an `e`/`E` not followed by digits is not part of the literal and
contributes exponent `0`, as does any other leading character. -/
def scanExponentPart (l : List Char) : ℤ :=
  match l with
  | c :: rest =>
      if c = 'e' || c = 'E' then
        match rest with
        | '+' :: r2 => if (takeDigits r2).1.isEmpty then 0 else (digitsToNat (takeDigits r2).1 : ℤ)
        | '-' :: r2 => if (takeDigits r2).1.isEmpty then 0 else -(digitsToNat (takeDigits r2).1 : ℤ)
        | r2 => if (takeDigits r2).1.isEmpty then 0 else (digitsToNat (takeDigits r2).1 : ℤ)
      else 0
  | [] => 0

/-- Discrete description of a `parseFloat` scan: no numeric prefix (`nan`),
the word `Infinity` with its sign, or a decimal literal with its sign,
mantissa digits read as an integer, fraction length, and exponent. -/
inductive ScanResult where
  | nan
  | inf (neg : Bool)
  | lit (neg : Bool) (mant : ℕ) (fracLen : ℕ) (exp : ℤ)
deriving DecidableEq

/-- Scan the unsigned part of a `parseFloat` literal: the word `Infinity`,
or a decimal mantissa with optional exponent; anything else is `NaN`.
`neg` records a leading minus sign. -/
def scanUnsigned (l : List Char) (neg : Bool) : ScanResult :=
  if l.take 8 = "Infinity".toList then .inf neg
  else
    match scanMantissa l with
    | none => .nan
    | some mr => .lit neg mr.1.1 mr.1.2 (scanExponentPart mr.2)

/-- Scan an optionally signed `parseFloat` literal. -/
def scanSigned : List Char → ScanResult
  | '+' :: r => scanUnsigned r false
  | '-' :: r => scanUnsigned r true
  | r => scanUnsigned r false

/-- Scan a string as `parseFloat` does: skip leading whitespace, then read
the longest optionally signed decimal literal or `Infinity`; trailing
characters are ignored. -/
def scanFloat (s : String) : ScanResult :=
  scanSigned (dropLeadingWS s.toList)

/-- Scale a mantissa by a decimal exponent, exactly. -/
def applyExponent (m : ℚ) (e : ℤ) : ℚ :=
  if 0 ≤ e then m * (10 : ℚ) ^ e.toNat else m / (10 : ℚ) ^ (-e).toNat

/-- Exact value of a scanned `parseFloat` literal. -/
def toJSNum : ScanResult → JSNum
  | .nan => .nan
  | .inf neg => if neg then .negInf else .posInf
  | .lit neg m f e =>
      let v := applyExponent ((m : ℚ) / (10 : ℚ) ^ f) e
      .finite (if neg then -v else v)

/-- Model of the ECMAScript `parseFloat` builtin used by the component. -/
def jsParseFloat (s : String) : JSNum :=
  toJSNum (scanFloat s)

/-- The form's seven raw text fields (`InputState` in the source). -/
structure InputState where
  token1Price : String
  token2Price : String
  totalLiquidity : String
  upperBound : String
  lowerBound : String
  token1Symbol : String
  token2Symbol : String
deriving DecidableEq

/-- `PositionDetails` from the source: the seven numeric outputs of
`calculatePositions`. -/
structure PositionDetails where
  token1Amount : JSNum
  token2Amount : JSNum
  token1ValueUSD : JSNum
  token2ValueUSD : JSNum
  token1Hedge : JSNum
  token2Hedge : JSNum
  pairPrice : JSNum
deriving DecidableEq

/-- `PriceRange` from the source. -/
structure PriceRange where
  lower : JSNum
  current : JSNum
  upper : JSNum
deriving DecidableEq

/-- `CalculationResults` from the source: the position details plus the
derived price range. -/
structure CalculationResults extends PositionDetails where
  priceRange : PriceRange
deriving DecidableEq

/-- The memoized calculation function of the component: 50/50 USD split,
half-position hedges, USD values recovered by multiplication, and the pair
price as the ratio of the two USD prices. -/
def calculatePositions (token1PriceUSD token2PriceUSD totalValue : JSNum) :
    PositionDetails :=
  let valuePerSide := jdiv totalValue (.finite 2)
  let token1Amount := jdiv valuePerSide token1PriceUSD
  let token2Amount := jdiv valuePerSide token2PriceUSD
  let token1Hedge := jdiv token1Amount (.finite 2)
  let token2Hedge := jdiv token2Amount (.finite 2)
  { token1Amount := token1Amount
    token2Amount := token2Amount
    token1ValueUSD := jmul token1Amount token1PriceUSD
    token2ValueUSD := jmul token2Amount token2PriceUSD
    token1Hedge := token1Hedge
    token2Hedge := token2Hedge
    pairPrice := jdiv token1PriceUSD token2PriceUSD }

/-- The `parseNumericInput` helper of `handleCalculate`: `parseFloat` the raw
string, throw "must be a number" on `NaN`, then throw "must be a positive
number" when the parsed value is `<= 0` unless the field name is literally
`upperBound` or `lowerBound`.  (The call sites pass the display names
`"Upper Bound"`/`"Lower Bound"`, which do not match these keys.) -/
def parseNumericInput (value : String) (fieldName : String) : Except String JSNum :=
  let parsed := jsParseFloat value
  if parsed.isNaN then
    .error ("Invalid " ++ fieldName ++ ": must be a number")
  else if jsle parsed (.finite 0) && !(fieldName = "upperBound") && !(fieldName = "lowerBound") then
    .error (fieldName ++ " must be a positive number")
  else
    .ok parsed

/-- The body of `handleCalculate`'s `try` block: parse and validate the five
numeric fields in order, check the two symbols are non-empty after trimming,
then compute the positions and attach the price range. -/
def runCalculate (inputs : InputState) : Except String CalculationResults := do
  let token1PriceUSD ← parseNumericInput inputs.token1Price "Token 1 Price"
  let token2PriceUSD ← parseNumericInput inputs.token2Price "Token 2 Price"
  let totalValue ← parseNumericInput inputs.totalLiquidity "Total Liquidity"
  let upperPct ← parseNumericInput inputs.upperBound "Upper Bound"
  let lowerPct ← parseNumericInput inputs.lowerBound "Lower Bound"
  if jsTrim inputs.token1Symbol = "" then
    throw "Token 1 Symbol cannot be empty"
  else if jsTrim inputs.token2Symbol = "" then
    throw "Token 2 Symbol cannot be empty"
  else
    let positions := calculatePositions token1PriceUSD token2PriceUSD totalValue
    let pairPrice := positions.pairPrice
    pure
      { toPositionDetails := positions
        priceRange :=
          { lower := jmul pairPrice (jsub (.finite 1) (jdiv lowerPct (.finite 100)))
            current := pairPrice
            upper := jmul pairPrice (jadd (.finite 1) (jdiv upperPct (.finite 100))) } }

/-- `handleCalculate`: on success store the fresh results and clear the
error; on any thrown validation error store its message and clear the
results.  The previous `(results, error)` pair is overwritten unconditionally
in either branch, which the extra argument makes explicit. -/
def handleCalculate (inputs : InputState)
    (_previous : Option CalculationResults × String) :
    Option CalculationResults × String :=
  match runCalculate inputs with
  | .ok r => (some r, "")
  | .error e => (none, e)

/-- The component's initial form state (the default placeholder values). -/
def defaultInputs : InputState :=
  { token1Price := "0.7110"
    token2Price := "2500"
    totalLiquidity := "10000"
    upperBound := "4.44"
    lowerBound := "4.44"
    token1Symbol := "S"
    token2Symbol := "WETH" }

/-- A sample result record, used to exhibit that a previously displayed
result is discarded on a later validation failure. -/
def sampleResults : CalculationResults :=
  { token1Amount := .finite 1
    token2Amount := .finite 1
    token1ValueUSD := .finite 1
    token2ValueUSD := .finite 1
    token1Hedge := .finite 1
    token2Hedge := .finite 1
    pairPrice := .finite 1
    priceRange := { lower := .finite 1, current := .finite 1, upper := .finite 1 } }

theorem parseNumericInput_ok_of_pos {v : String} {q : ℚ} (hq : jsParseFloat v = .finite q)
    (hpos : 0 < q) (fld : String) : parseNumericInput v fld = .ok (.finite q) := by
  simp [parseNumericInput, hq, JSNum.isNaN, jsle, decide_eq_false (not_le.mpr hpos)]

theorem parseNumericInput_err_nan {v : String} (h : jsParseFloat v = .nan) (fld : String) :
    parseNumericInput v fld = .error ("Invalid " ++ fld ++ ": must be a number") := by
  simp [parseNumericInput, h, JSNum.isNaN]

theorem parseNumericInput_err_nonpos {v : String} {q : ℚ} (hq : jsParseFloat v = .finite q)
    (h : q ≤ 0) (fld : String) (h1 : fld ≠ "upperBound") (h2 : fld ≠ "lowerBound") :
    parseNumericInput v fld = .error (fld ++ " must be a positive number") := by
  simp [parseNumericInput, hq, JSNum.isNaN, jsle, h, h1, h2]

theorem runCalculate_ok {inputs : InputState} {a b c u l : JSNum}
    (h1 : parseNumericInput inputs.token1Price "Token 1 Price" = .ok a)
    (h2 : parseNumericInput inputs.token2Price "Token 2 Price" = .ok b)
    (h3 : parseNumericInput inputs.totalLiquidity "Total Liquidity" = .ok c)
    (h4 : parseNumericInput inputs.upperBound "Upper Bound" = .ok u)
    (h5 : parseNumericInput inputs.lowerBound "Lower Bound" = .ok l)
    (h6 : jsTrim inputs.token1Symbol ≠ "")
    (h7 : jsTrim inputs.token2Symbol ≠ "") :
    runCalculate inputs = .ok
      { toPositionDetails := calculatePositions a b c
        priceRange :=
          { lower := jmul (calculatePositions a b c).pairPrice
              (jsub (.finite 1) (jdiv l (.finite 100)))
            current := (calculatePositions a b c).pairPrice
            upper := jmul (calculatePositions a b c).pairPrice
              (jadd (.finite 1) (jdiv u (.finite 100))) } } := by
  simp [runCalculate, h1, h2, h3, h4, h5, h6, h7, bind, Except.bind, pure, Except.pure]

theorem runCalculate_err1 {inputs : InputState} {m : String}
    (h1 : parseNumericInput inputs.token1Price "Token 1 Price" = .error m) :
    runCalculate inputs = .error m := by
  simp [runCalculate, h1, bind, Except.bind]

theorem runCalculate_err3 {inputs : InputState} {a b : JSNum} {m : String}
    (h1 : parseNumericInput inputs.token1Price "Token 1 Price" = .ok a)
    (h2 : parseNumericInput inputs.token2Price "Token 2 Price" = .ok b)
    (h3 : parseNumericInput inputs.totalLiquidity "Total Liquidity" = .error m) :
    runCalculate inputs = .error m := by
  simp [runCalculate, h1, h2, h3, bind, Except.bind]

theorem runCalculate_err4 {inputs : InputState} {a b c : JSNum} {m : String}
    (h1 : parseNumericInput inputs.token1Price "Token 1 Price" = .ok a)
    (h2 : parseNumericInput inputs.token2Price "Token 2 Price" = .ok b)
    (h3 : parseNumericInput inputs.totalLiquidity "Total Liquidity" = .ok c)
    (h4 : parseNumericInput inputs.upperBound "Upper Bound" = .error m) :
    runCalculate inputs = .error m := by
  simp [runCalculate, h1, h2, h3, h4, bind, Except.bind]

theorem runCalculate_errSym1 {inputs : InputState} {a b c u l : JSNum}
    (h1 : parseNumericInput inputs.token1Price "Token 1 Price" = .ok a)
    (h2 : parseNumericInput inputs.token2Price "Token 2 Price" = .ok b)
    (h3 : parseNumericInput inputs.totalLiquidity "Total Liquidity" = .ok c)
    (h4 : parseNumericInput inputs.upperBound "Upper Bound" = .ok u)
    (h5 : parseNumericInput inputs.lowerBound "Lower Bound" = .ok l)
    (h6 : jsTrim inputs.token1Symbol = "") :
    runCalculate inputs = .error "Token 1 Symbol cannot be empty" := by
  simp [runCalculate, h1, h2, h3, h4, h5, h6, bind, Except.bind, throw, throwThe, MonadExceptOf.throw]

theorem runCalculate_errSym2 {inputs : InputState} {a b c u l : JSNum}
    (h1 : parseNumericInput inputs.token1Price "Token 1 Price" = .ok a)
    (h2 : parseNumericInput inputs.token2Price "Token 2 Price" = .ok b)
    (h3 : parseNumericInput inputs.totalLiquidity "Total Liquidity" = .ok c)
    (h4 : parseNumericInput inputs.upperBound "Upper Bound" = .ok u)
    (h5 : parseNumericInput inputs.lowerBound "Lower Bound" = .ok l)
    (h6 : jsTrim inputs.token1Symbol ≠ "")
    (h7 : jsTrim inputs.token2Symbol = "") :
    runCalculate inputs = .error "Token 2 Symbol cannot be empty" := by
  simp [runCalculate, h1, h2, h3, h4, h5, h6, h7, bind, Except.bind, throw, throwThe, MonadExceptOf.throw]

theorem parseNumericInput_error_cases {v fld m : String}
    (h : parseNumericInput v fld = .error m) :
    m = "Invalid " ++ fld ++ ": must be a number" ∨ m = fld ++ " must be a positive number" := by
  simp only [parseNumericInput] at h
  split at h
  · exact Or.inl (by simpa using h.symm)
  · split at h
    · exact Or.inr (by simpa using h.symm)
    · simp at h

theorem runCalculate_err2 {inputs : InputState} {a : JSNum} {m : String}
    (h1 : parseNumericInput inputs.token1Price "Token 1 Price" = .ok a)
    (h2 : parseNumericInput inputs.token2Price "Token 2 Price" = .error m) :
    runCalculate inputs = .error m := by
  simp [runCalculate, h1, h2, bind, Except.bind]

theorem runCalculate_err5 {inputs : InputState} {a b c u : JSNum} {m : String}
    (h1 : parseNumericInput inputs.token1Price "Token 1 Price" = .ok a)
    (h2 : parseNumericInput inputs.token2Price "Token 2 Price" = .ok b)
    (h3 : parseNumericInput inputs.totalLiquidity "Total Liquidity" = .ok c)
    (h4 : parseNumericInput inputs.upperBound "Upper Bound" = .ok u)
    (h5 : parseNumericInput inputs.lowerBound "Lower Bound" = .error m) :
    runCalculate inputs = .error m := by
  simp [runCalculate, h1, h2, h3, h4, h5, bind, Except.bind]

theorem runCalculate_error_shape {inputs : InputState} {msg : String}
    (h : runCalculate inputs = .error msg) :
    msg = "Invalid Token 1 Price: must be a number" ∨ msg = "Token 1 Price must be a positive number" ∨
    msg = "Invalid Token 2 Price: must be a number" ∨ msg = "Token 2 Price must be a positive number" ∨
    msg = "Invalid Total Liquidity: must be a number" ∨ msg = "Total Liquidity must be a positive number" ∨
    msg = "Invalid Upper Bound: must be a number" ∨ msg = "Upper Bound must be a positive number" ∨
    msg = "Invalid Lower Bound: must be a number" ∨ msg = "Lower Bound must be a positive number" ∨
    msg = "Token 1 Symbol cannot be empty" ∨ msg = "Token 2 Symbol cannot be empty" := by
  cases hp1 : parseNumericInput inputs.token1Price "Token 1 Price" with
  | error m =>
      rw [runCalculate_err1 hp1] at h
      obtain rfl : m = msg := by simpa using h
      rcases parseNumericInput_error_cases hp1 with rfl | rfl <;> decide
  | ok a =>
  cases hp2 : parseNumericInput inputs.token2Price "Token 2 Price" with
  | error m =>
      rw [runCalculate_err2 hp1 hp2] at h
      obtain rfl : m = msg := by simpa using h
      rcases parseNumericInput_error_cases hp2 with rfl | rfl <;> decide
  | ok b =>
  cases hp3 : parseNumericInput inputs.totalLiquidity "Total Liquidity" with
  | error m =>
      rw [runCalculate_err3 hp1 hp2 hp3] at h
      obtain rfl : m = msg := by simpa using h
      rcases parseNumericInput_error_cases hp3 with rfl | rfl <;> decide
  | ok c =>
  cases hp4 : parseNumericInput inputs.upperBound "Upper Bound" with
  | error m =>
      rw [runCalculate_err4 hp1 hp2 hp3 hp4] at h
      obtain rfl : m = msg := by simpa using h
      rcases parseNumericInput_error_cases hp4 with rfl | rfl <;> decide
  | ok u =>
  cases hp5 : parseNumericInput inputs.lowerBound "Lower Bound" with
  | error m =>
      rw [runCalculate_err5 hp1 hp2 hp3 hp4 hp5] at h
      obtain rfl : m = msg := by simpa using h
      rcases parseNumericInput_error_cases hp5 with rfl | rfl <;> decide
  | ok l =>
  by_cases hs1 : jsTrim inputs.token1Symbol = ""
  · rw [runCalculate_errSym1 hp1 hp2 hp3 hp4 hp5 hs1] at h
    obtain rfl : "Token 1 Symbol cannot be empty" = msg := by simpa using h
    decide
  · by_cases hs2 : jsTrim inputs.token2Symbol = ""
    · rw [runCalculate_errSym2 hp1 hp2 hp3 hp4 hp5 hs1 hs2] at h
      obtain rfl : "Token 2 Symbol cannot be empty" = msg := by simpa using h
      decide
    · rw [runCalculate_ok hp1 hp2 hp3 hp4 hp5 hs1 hs2] at h
      exact absurd h (by simp)

theorem runCalculate_error_ne_empty {inputs : InputState} {msg : String}
    (h : runCalculate inputs = .error msg) : msg ≠ "" := by
  rcases runCalculate_error_shape h with rfl|rfl|rfl|rfl|rfl|rfl|rfl|rfl|rfl|rfl|rfl|rfl <;> decide

theorem parseNumericInput_ok_iff {v fld : String} (h1 : fld ≠ "upperBound")
    (h2 : fld ≠ "lowerBound") (p : JSNum) :
    parseNumericInput v fld = .ok p ↔
      jsParseFloat v = p ∧ p.isNaN = false ∧ jsle p (.finite 0) = false := by
  constructor
  · intro h
    simp only [parseNumericInput] at h
    split at h
    · simp at h
    · split at h
      · simp at h
      · rename_i hn hc
        obtain rfl : jsParseFloat v = p := by simpa using h
        refine ⟨rfl, by simpa using hn, ?_⟩
        simpa [h1, h2] using hc
  · rintro ⟨rfl, hn, hle⟩
    simp [parseNumericInput, hn, hle]

theorem parseNumericInput_ok_pos {v fld : String} {q : ℚ} (h1 : fld ≠ "upperBound")
    (h2 : fld ≠ "lowerBound") (h : parseNumericInput v fld = .ok (.finite q)) : 0 < q := by
  have hle := ((parseNumericInput_ok_iff h1 h2 _).mp h).2.2
  exact not_le.mp (by simpa [jsle] using hle)

theorem jsParseFloat_eval {s : String} {r : ScanResult} (h : scanFloat s = r) :
    jsParseFloat s = toJSNum r := by
  unfold jsParseFloat
  rw [h]

theorem jsParseFloat_price1_default : jsParseFloat "0.7110" = .finite (711 / 1000) := by
  rw [jsParseFloat_eval (show scanFloat "0.7110" = .lit false 7110 4 0 by decide)]
  norm_num [toJSNum, applyExponent]

theorem jsParseFloat_price2_default : jsParseFloat "2500" = .finite 2500 := by
  rw [jsParseFloat_eval (show scanFloat "2500" = .lit false 2500 0 0 by decide)]
  norm_num [toJSNum, applyExponent]

theorem jsParseFloat_total_default : jsParseFloat "10000" = .finite 10000 := by
  rw [jsParseFloat_eval (show scanFloat "10000" = .lit false 10000 0 0 by decide)]
  norm_num [toJSNum, applyExponent]

theorem jsParseFloat_bound_default : jsParseFloat "4.44" = .finite (111 / 25) := by
  rw [jsParseFloat_eval (show scanFloat "4.44" = .lit false 444 2 0 by decide)]
  norm_num [toJSNum, applyExponent]

theorem parse_price1_default : parseNumericInput "0.7110" "Token 1 Price" = .ok (.finite (711 / 1000)) :=
  parseNumericInput_ok_of_pos jsParseFloat_price1_default (by norm_num) _

theorem parse_price2_default : parseNumericInput "2500" "Token 2 Price" = .ok (.finite 2500) :=
  parseNumericInput_ok_of_pos jsParseFloat_price2_default (by norm_num) _

theorem parse_total_default : parseNumericInput "10000" "Total Liquidity" = .ok (.finite 10000) :=
  parseNumericInput_ok_of_pos jsParseFloat_total_default (by norm_num) _

theorem parse_upper_default : parseNumericInput "4.44" "Upper Bound" = .ok (.finite (111 / 25)) :=
  parseNumericInput_ok_of_pos jsParseFloat_bound_default (by norm_num) _

theorem parse_lower_default : parseNumericInput "4.44" "Lower Bound" = .ok (.finite (111 / 25)) :=
  parseNumericInput_ok_of_pos jsParseFloat_bound_default (by norm_num) _

/-- C1: for positive token prices and total value, `calculatePositions` returns
exactly the even-split amounts `(totalValue/2)/price`, hedges of half each
amount, USD values recovered by multiplying back, and the pair price
`token1PriceUSD / token2PriceUSD`; it is a pure function of its arguments. -/
theorem calculatePositions_exact_formulas (p1 p2 v : ℚ)
    (hp1 : 0 < p1) (hp2 : 0 < p2) (hv : 0 < v) :
    calculatePositions (.finite p1) (.finite p2) (.finite v) =
      { token1Amount := .finite (v / 2 / p1)
        token2Amount := .finite (v / 2 / p2)
        token1ValueUSD := .finite (v / 2 / p1 * p1)
        token2ValueUSD := .finite (v / 2 / p2 * p2)
        token1Hedge := .finite (v / 2 / p1 / 2)
        token2Hedge := .finite (v / 2 / p2 / 2)
        pairPrice := .finite (p1 / p2) } := by
  simp [calculatePositions, jdiv, jmul, hp1.ne', hp2.ne']

theorem calculatePositions_exact_formulas_witness :
    (0:ℚ) < 1 ∧ (0:ℚ) < 2 ∧ (0:ℚ) < 4 ∧
    calculatePositions (.finite 1) (.finite 2) (.finite 4) =
      { token1Amount := .finite (4 / 2 / 1)
        token2Amount := .finite (4 / 2 / 2)
        token1ValueUSD := .finite (4 / 2 / 1 * 1)
        token2ValueUSD := .finite (4 / 2 / 2 * 2)
        token1Hedge := .finite (4 / 2 / 1 / 2)
        token2Hedge := .finite (4 / 2 / 2 / 2)
        pairPrice := .finite (1 / 2) } :=
  ⟨by norm_num, by norm_num, by norm_num,
    calculatePositions_exact_formulas 1 2 4 (by norm_num) (by norm_num) (by norm_num)⟩

/-- C3: for positive inputs the two USD values returned by
`calculatePositions` sum exactly to the total value. -/
theorem calculatePositions_value_sum (p1 p2 v : ℚ)
    (hp1 : 0 < p1) (hp2 : 0 < p2) (hv : 0 < v) :
    jadd (calculatePositions (.finite p1) (.finite p2) (.finite v)).token1ValueUSD
      (calculatePositions (.finite p1) (.finite p2) (.finite v)).token2ValueUSD
      = .finite v := by
  simp [calculatePositions, jdiv, jmul, jadd, hp1.ne', hp2.ne']

theorem calculatePositions_value_sum_witness :
    (0:ℚ) < 1 ∧ (0:ℚ) < 2 ∧ (0:ℚ) < 4 ∧
    jadd (calculatePositions (.finite 1) (.finite 2) (.finite 4)).token1ValueUSD
      (calculatePositions (.finite 1) (.finite 2) (.finite 4)).token2ValueUSD
      = .finite 4 :=
  ⟨by norm_num, by norm_num, by norm_num,
    calculatePositions_value_sum 1 2 4 (by norm_num) (by norm_num) (by norm_num)⟩

/-- C9: on the default inputs (`token1Price` 0.7110, i.e. 711/1000;
`token2Price` 2500; `totalLiquidity` 10000) the calculation returns
`token1Amount = 5000/0.711 = 5000000/711`, `token2Amount = 2` exactly, and
`pairPrice = 0.711/2500 = 711/2500000`. -/
theorem calculatePositions_default_example :
    jsParseFloat "0.7110" = .finite (711 / 1000) ∧
    (calculatePositions (.finite (711 / 1000)) (.finite 2500) (.finite 10000)).token1Amount
        = .finite (5000000 / 711) ∧
    (calculatePositions (.finite (711 / 1000)) (.finite 2500) (.finite 10000)).token2Amount
        = .finite 2 ∧
    (calculatePositions (.finite (711 / 1000)) (.finite 2500) (.finite 10000)).pairPrice
        = .finite (711 / 2500000) := by
  refine ⟨jsParseFloat_price1_default, ?_, ?_, ?_⟩ <;> norm_num [calculatePositions, jdiv]

theorem jsParseFloat_neg5 : jsParseFloat "-5" = .finite (-5) := by
  rw [jsParseFloat_eval (show scanFloat "-5" = .lit true 5 0 0 by decide)]
  norm_num [toJSNum, applyExponent]

theorem jsParseFloat_zero : jsParseFloat "0" = .finite 0 := by
  rw [jsParseFloat_eval (show scanFloat "0" = .lit false 0 0 0 by decide)]
  norm_num [toJSNum, applyExponent]

theorem jsParseFloat_150 : jsParseFloat "150" = .finite 150 := by
  rw [jsParseFloat_eval (show scanFloat "150" = .lit false 150 0 0 by decide)]
  norm_num [toJSNum, applyExponent]

theorem jsParseFloat_10abc : jsParseFloat "10abc" = .finite 10 := by
  rw [jsParseFloat_eval (show scanFloat "10abc" = .lit false 10 0 0 by decide)]
  norm_num [toJSNum, applyExponent]

theorem jsParseFloat_abc : jsParseFloat "abc" = .nan := by
  rw [jsParseFloat_eval (show scanFloat "abc" = .nan by decide)]
  rfl

theorem parse_lower_150 : parseNumericInput "150" "Lower Bound" = .ok (.finite 150) :=
  parseNumericInput_ok_of_pos jsParseFloat_150 (by norm_num) _

theorem parse_total_10abc : parseNumericInput "10abc" "Total Liquidity" = .ok (.finite 10) :=
  parseNumericInput_ok_of_pos jsParseFloat_10abc (by norm_num) _

theorem parse_total_abc :
    parseNumericInput "abc" "Total Liquidity" = .error "Invalid Total Liquidity: must be a number" := by
  have h := parseNumericInput_err_nan jsParseFloat_abc "Total Liquidity"
  rw [show ("Invalid " ++ "Total Liquidity" ++ ": must be a number")
      = "Invalid Total Liquidity: must be a number" by decide] at h
  exact h

theorem parse_upper_neg5 :
    parseNumericInput "-5" "Upper Bound" = .error "Upper Bound must be a positive number" := by
  have h := parseNumericInput_err_nonpos jsParseFloat_neg5 (by norm_num) "Upper Bound"
    (by decide) (by decide)
  rw [show ("Upper Bound" ++ " must be a positive number")
      = "Upper Bound must be a positive number" by decide] at h
  exact h

/-- C2 (code behaviour at the failing input): the positivity exemption in
`parseNumericInput` compares the field name against the keys
`"upperBound"`/`"lowerBound"`, but `handleCalculate` passes the display names
`"Upper Bound"`/`"Lower Bound"`, which never match.  So a non-positive bound
value is rejected with a positivity error (the whole calculation failing),
while the exemption would fire only for the never-passed camel-case keys. -/
theorem boundFields_positivity_not_exempt :
    parseNumericInput "-5" "Upper Bound" = .error "Upper Bound must be a positive number" ∧
    parseNumericInput "0" "Lower Bound" = .error "Lower Bound must be a positive number" ∧
    parseNumericInput "-5" "upperBound" = .ok (.finite (-5)) ∧
    handleCalculate { defaultInputs with upperBound := "-5" } (none, "") =
      (none, "Upper Bound must be a positive number") := by
  refine ⟨parse_upper_neg5, ?_, ?_, ?_⟩
  · have h := parseNumericInput_err_nonpos jsParseFloat_zero (by norm_num) "Lower Bound"
      (by decide) (by decide)
    rw [show ("Lower Bound" ++ " must be a positive number")
        = "Lower Bound must be a positive number" by decide] at h
    exact h
  · simp [parseNumericInput, jsParseFloat_neg5, JSNum.isNaN]
  · have hrun : runCalculate { defaultInputs with upperBound := "-5" } =
        .error "Upper Bound must be a positive number" :=
      runCalculate_err4 parse_price1_default parse_price2_default parse_total_default
        parse_upper_neg5
    simp [handleCalculate, hrun]

/-- C4 (counterexample): validation accepts the non-finite input "Infinity"
for Token 1 Price — the code checks only `isNaN` and positivity, so
`parseFloat("Infinity") = +Infinity` passes where the claim requires
rejection for non-finiteness. -/
theorem parseNumericInput_accepts_Infinity :
    parseNumericInput "Infinity" "Token 1 Price" = .ok .posInf := by
  have h : jsParseFloat "Infinity" = .posInf := by
    rw [jsParseFloat_eval (show scanFloat "Infinity" = .inf false by decide)]
    rfl
  simp [parseNumericInput, h, JSNum.isNaN, jsle]

/-- C4 (amended): for a field other than the (never-matched) exempt keys —
in particular for Token 1 Price, Token 2 Price and Total Liquidity —
validation succeeds exactly when `parseFloat` of the raw string is a
non-`NaN` value that is not `<= 0`; non-finite values such as `+Infinity`
are therefore accepted, not rejected.  Any validation error is one of the
two messages naming the field. -/
theorem parseNumericInput_positive_fields_iff (v fld : String)
    (h1 : fld ≠ "upperBound") (h2 : fld ≠ "lowerBound") :
    (∀ p, parseNumericInput v fld = .ok p ↔
        jsParseFloat v = p ∧ p.isNaN = false ∧ jsle p (.finite 0) = false) ∧
    (∀ m, parseNumericInput v fld = .error m →
        m = "Invalid " ++ fld ++ ": must be a number" ∨
        m = fld ++ " must be a positive number") :=
  ⟨fun p => parseNumericInput_ok_iff h1 h2 p, fun _ h => parseNumericInput_error_cases h⟩

theorem parseNumericInput_positive_fields_iff_witness :
    parseNumericInput "2500" "Token 1 Price" = .ok (.finite 2500) :=
  ((parseNumericInput_positive_fields_iff "2500" "Token 1 Price" (by decide) (by decide)).1
      (.finite 2500)).mpr
    ⟨jsParseFloat_price2_default, rfl, by simp [jsle]⟩

/-- C7: after any run of `handleCalculate`, either a result is present and the
error message is empty, or the result is `none` and the error message is
non-empty — never both a result and a non-empty error. -/
theorem handleCalculate_result_error_exclusive (inputs : InputState)
    (prevState : Option CalculationResults × String) :
    ((handleCalculate inputs prevState).1.isSome = true ∧
      (handleCalculate inputs prevState).2 = "") ∨
    ((handleCalculate inputs prevState).1 = none ∧
      (handleCalculate inputs prevState).2 ≠ "") := by
  cases h : runCalculate inputs with
  | ok r => left; simp [handleCalculate, h]
  | error m =>
      right
      simpa [handleCalculate, h] using runCalculate_error_ne_empty h

theorem handleCalculate_result_error_exclusive_witness :
    ((handleCalculate defaultInputs (none, "")).1.isSome = true ∧
      (handleCalculate defaultInputs (none, "")).2 = "") ∨
    ((handleCalculate defaultInputs (none, "")).1 = none ∧
      (handleCalculate defaultInputs (none, "")).2 ≠ "") :=
  handleCalculate_result_error_exclusive defaultInputs (none, "")

/-- C6: whenever validation fails, `handleCalculate` stores the (non-empty)
message of the first violated constraint and sets the result to `none`,
regardless of the previous output state; in particular a non-numeric
Total Liquidity such as "abc" yields the error naming that field and
discards any previously displayed result. -/
theorem handleCalculate_validation_failure :
    (∀ (inputs : InputState) (prevState : Option CalculationResults × String) (msg : String),
        runCalculate inputs = .error msg →
          handleCalculate inputs prevState = (none, msg) ∧ msg ≠ "") ∧
    (∀ prevState : Option CalculationResults × String,
        handleCalculate { defaultInputs with totalLiquidity := "abc" } prevState =
          (none, "Invalid Total Liquidity: must be a number")) := by
  constructor
  · intro inputs prevState msg h
    exact ⟨by simp [handleCalculate, h], runCalculate_error_ne_empty h⟩
  · intro prevState
    have hrun : runCalculate { defaultInputs with totalLiquidity := "abc" } =
        .error "Invalid Total Liquidity: must be a number" :=
      runCalculate_err3 parse_price1_default parse_price2_default parse_total_abc
    simp [handleCalculate, hrun]

/-- C8: when all five numeric fields validate but a token symbol is empty
after trimming, `handleCalculate` raises the corresponding
"cannot be empty" error and produces no result. -/
theorem handleCalculate_empty_symbol (inputs : InputState)
    (prevState : Option CalculationResults × String) (a b c u l : JSNum)
    (h1 : parseNumericInput inputs.token1Price "Token 1 Price" = .ok a)
    (h2 : parseNumericInput inputs.token2Price "Token 2 Price" = .ok b)
    (h3 : parseNumericInput inputs.totalLiquidity "Total Liquidity" = .ok c)
    (h4 : parseNumericInput inputs.upperBound "Upper Bound" = .ok u)
    (h5 : parseNumericInput inputs.lowerBound "Lower Bound" = .ok l) :
    (jsTrim inputs.token1Symbol = "" →
      handleCalculate inputs prevState = (none, "Token 1 Symbol cannot be empty")) ∧
    (jsTrim inputs.token1Symbol ≠ "" → jsTrim inputs.token2Symbol = "" →
      handleCalculate inputs prevState = (none, "Token 2 Symbol cannot be empty")) := by
  constructor
  · intro hs
    simp [handleCalculate, runCalculate_errSym1 h1 h2 h3 h4 h5 hs]
  · intro hs1 hs2
    simp [handleCalculate, runCalculate_errSym2 h1 h2 h3 h4 h5 hs1 hs2]

theorem handleCalculate_empty_symbol_witness :
    handleCalculate { defaultInputs with token1Symbol := "   " } (none, "") =
      (none, "Token 1 Symbol cannot be empty") :=
  (handleCalculate_empty_symbol { defaultInputs with token1Symbol := "   " } (none, "")
      _ _ _ _ _ parse_price1_default parse_price2_default parse_total_default
      parse_upper_default parse_lower_default).1 (by decide)

/-- C5: whenever all validation passes (with finite parsed values), the stored
price range is exactly `lower = pairPrice*(1 - lowerPct/100)`,
`current = pairPrice`, `upper = pairPrice*(1 + upperPct/100)` with
`pairPrice = token1Price/token2Price`; no ordering check relates `lower` and
`upper`, so a `lowerPct > 100` (which passes validation, being positive)
yields a negative lower bound that is accepted without error. -/
theorem handleCalculate_priceRange_formula (inputs : InputState)
    (prevState : Option CalculationResults × String) (p1 p2 v u l : ℚ)
    (h1 : parseNumericInput inputs.token1Price "Token 1 Price" = .ok (.finite p1))
    (h2 : parseNumericInput inputs.token2Price "Token 2 Price" = .ok (.finite p2))
    (h3 : parseNumericInput inputs.totalLiquidity "Total Liquidity" = .ok (.finite v))
    (h4 : parseNumericInput inputs.upperBound "Upper Bound" = .ok (.finite u))
    (h5 : parseNumericInput inputs.lowerBound "Lower Bound" = .ok (.finite l))
    (h6 : jsTrim inputs.token1Symbol ≠ "") (h7 : jsTrim inputs.token2Symbol ≠ "") :
    ∃ r : CalculationResults, handleCalculate inputs prevState = (some r, "") ∧
      r.priceRange = { lower := .finite (p1 / p2 * (1 - l / 100))
                       current := .finite (p1 / p2)
                       upper := .finite (p1 / p2 * (1 + u / 100)) } := by
  have hp2 : 0 < p2 := parseNumericInput_ok_pos (by decide) (by decide) h2
  have hrun := runCalculate_ok h1 h2 h3 h4 h5 h6 h7
  have hpair : (calculatePositions (.finite p1) (.finite p2) (.finite v)).pairPrice
      = .finite (p1 / p2) := by
    simp [calculatePositions, jdiv, hp2.ne']
  refine ⟨{ toPositionDetails := calculatePositions (.finite p1) (.finite p2) (.finite v)
            priceRange :=
              { lower := jmul (calculatePositions (.finite p1) (.finite p2) (.finite v)).pairPrice
                  (jsub (.finite 1) (jdiv (.finite l) (.finite 100)))
                current := (calculatePositions (.finite p1) (.finite p2) (.finite v)).pairPrice
                upper := jmul (calculatePositions (.finite p1) (.finite p2) (.finite v)).pairPrice
                  (jadd (.finite 1) (jdiv (.finite u) (.finite 100))) } },
    by simp [handleCalculate, hrun], ?_⟩
  simp only [hpair]
  have h100 : (100 : ℚ) ≠ 0 := by norm_num
  simp [jdiv, jsub, jadd, jmul, h100]

theorem handleCalculate_priceRange_formula_witness :
    ((711 : ℚ) / 1000 / 2500 * (1 - 150 / 100) < 0) ∧
    ∃ r : CalculationResults,
      handleCalculate { defaultInputs with lowerBound := "150" } (none, "") = (some r, "") ∧
      r.priceRange = { lower := .finite (711 / 1000 / 2500 * (1 - 150 / 100))
                       current := .finite (711 / 1000 / 2500)
                       upper := .finite (711 / 1000 / 2500 * (1 + 111 / 25 / 100)) } :=
  ⟨by norm_num,
    handleCalculate_priceRange_formula { defaultInputs with lowerBound := "150" } (none, "")
      _ _ _ _ _ parse_price1_default parse_price2_default parse_total_default
      parse_upper_default parse_lower_150 (by decide) (by decide)⟩

/-- C10: the "must be a number" error can only fire when `parseFloat` of the
raw string is `NaN`, i.e. when the string has no leading numeric prefix: any
error on a string with a numeric prefix is the positivity message.  An input
such as "10abc" is accepted with the prefix value 10, passes validation, and
feeds the calculation (a result is produced with an empty error). -/
theorem parseNumericInput_numeric_prefix :
    (∀ v fld m : String, parseNumericInput v fld = .error m →
        (jsParseFloat v).isNaN = true ∨ m = fld ++ " must be a positive number") ∧
    parseNumericInput "10abc" "Total Liquidity" = .ok (.finite 10) ∧
    (handleCalculate { defaultInputs with totalLiquidity := "10abc" } (none, "")).2 = "" ∧
    (handleCalculate { defaultInputs with totalLiquidity := "10abc" } (none, "")).1.isSome
      = true := by
  have hrun := @runCalculate_ok { defaultInputs with totalLiquidity := "10abc" } _ _ _ _ _
    parse_price1_default parse_price2_default parse_total_10abc
    parse_upper_default parse_lower_default (by decide) (by decide)
  refine ⟨?_, parse_total_10abc, ?_, ?_⟩
  · intro v fld m h
    simp only [parseNumericInput] at h
    split at h
    · rename_i hn
      exact Or.inl hn
    · split at h
      · exact Or.inr (by simpa using h.symm)
      · simp at h
  · simp [handleCalculate, hrun]
  · simp [handleCalculate, hrun]

theorem parseNumericInput_numeric_prefix_witness :
    (jsParseFloat "abc").isNaN = true ∨
      "Invalid Total Liquidity: must be a number" =
        "Total Liquidity" ++ " must be a positive number" :=
  parseNumericInput_numeric_prefix.1 "abc" "Total Liquidity"
    "Invalid Total Liquidity: must be a number" parse_total_abc

theorem handleCalculate_validation_failure_witness :
    handleCalculate { defaultInputs with totalLiquidity := "abc" } (some sampleResults, "") =
      (none, "Invalid Total Liquidity: must be a number") :=
  handleCalculate_validation_failure.2 (some sampleResults, "")
